import Mathlib

/-!
Verification of the oil-spill-detection core: the detection synchronization
layer (the `useDetections` hook: fetch, client-side location filter,
optimistic update/delete, realtime subscription handlers) and the
satellite-catalog client (Copernicus OAuth token cache, bounding-box query
builder, Sentinel-1/Sentinel-2 searches and their combination in
`findSatelliteImagery`).

The definitions below are shallow embeddings of the TypeScript source.
Network effects are made explicit: every function that awaits a remote call
takes the settled outcome of that call as an argument (`Except String _` for
a promise that may reject, or a response record), and state updates are
explicit state passing on record types mirroring the React/static state.
-/

namespace OilSpill

/-- One detection record, mirroring the `OilSpillDetection` interface
(fields not touched by any modelled operation are kept to the ones the
claims exercise). -/
structure Detection where
  id : String
  latitude : ℝ
  longitude : ℝ
  status : String
  detected_at : String
  severity : Option String := none
  response_status : Option String := none
  validation_status : Option String := none
  notes : Option String := none
  tags : Option (List String) := none
  copernicus_product_id : Option String := none
  updated_at : Option String := none

/-- The `location` field of `SearchFilters`: center point plus radius in km. -/
structure LocationFilter where
  lat : ℝ
  lng : ℝ
  radius : ℝ

/-- The `SearchFilters` value object consumed by the store. -/
structure SearchFilters where
  status : Option String := none
  severity : Option (List String) := none
  responseStatus : Option (List String) := none
  validationStatus : Option (List String) := none
  location : Option LocationFilter := none
  searchText : Option String := none
  tags : Option (List String) := none

/-- Mathematical `atan2` (the semantics of `Math.atan2`), by quadrant case
split on the signs of the arguments. -/
noncomputable def atan2 (y x : ℝ) : ℝ :=
  if 0 < x then Real.arctan (y / x)
  else if x < 0 ∧ 0 ≤ y then Real.arctan (y / x) + Real.pi
  else if x < 0 ∧ y < 0 then Real.arctan (y / x) - Real.pi
  else if x = 0 ∧ 0 < y then Real.pi / 2
  else if x = 0 ∧ y < 0 then -(Real.pi / 2)
  else 0

/-- The haversine great-circle distance helper `calculateDistance` of the
`useDetections` hook (Earth radius 6371 km, deltas converted to radians,
`2·atan2(√a, √(1−a))` central angle). -/
noncomputable def calculateDistance (lat1 lon1 lat2 lon2 : ℝ) : ℝ :=
  let R : ℝ := 6371
  let dLat := (lat2 - lat1) * Real.pi / 180
  let dLon := (lon2 - lon1) * Real.pi / 180
  let a := Real.sin (dLat / 2) * Real.sin (dLat / 2) +
    Real.cos (lat1 * Real.pi / 180) * Real.cos (lat2 * Real.pi / 180) *
      Real.sin (dLon / 2) * Real.sin (dLon / 2)
  let c := 2 * atan2 (Real.sqrt a) (Real.sqrt (1 - a))
  R * c

/-- The client-side post-filter of `fetchDetections`: when a location filter
is present, keep exactly the records within `radius` km of the center. -/
noncomputable def applyLocationFilter : Option LocationFilter → List Detection → List Detection
  | none, data => data
  | some loc, data =>
      data.filter fun d =>
        decide (calculateDistance loc.lat loc.lng d.latitude d.longitude ≤ loc.radius)

/-- The React state of the `useDetections` hook relevant to the claims:
the collection, the loading and error flags, and the `isFetchingRef` guard. -/
structure StoreState where
  detections : List Detection
  loading : Bool
  error : Option String
  isFetching : Bool

/-- One complete run of `fetchDetections`: `remote` is the settled outcome
of the Supabase query (which already carries the server-side pushdown
filters); on success the fetched page goes through the client-side location
filter and replaces the collection in a single state assignment, on failure
only the error flag is set and the collection is left untouched; a run that
starts while `isFetching` is set returns immediately without touching any
state. -/
noncomputable def fetchDetections (s : StoreState) (filters : Option SearchFilters)
    (remote : Except String (List Detection)) : StoreState :=
  if s.isFetching then s
  else
    match remote with
    | .error e => { s with loading := false, error := some e, isFetching := false }
    | .ok data =>
        { s with
          detections := applyLocationFilter (filters.bind (fun f => f.location)) data,
          loading := false, error := none, isFetching := false }

/-- The `Partial<OilSpillDetection>` argument of `updateDetection`: each
field that may be present overrides the record's field on spread-merge. -/
structure DetectionPatch where
  status : Option String := none
  severity : Option String := none
  response_status : Option String := none
  validation_status : Option String := none
  notes : Option String := none
  tags : Option (List String) := none

/-- Spread-merge `{...d, ...updates, updated_at: ts}`: a field present in
the patch wins, `updated_at` is always stamped with the fresh timestamp. -/
def applyPatch (d : Detection) (u : DetectionPatch) (ts : String) : Detection :=
  { d with
    status := u.status.getD d.status,
    severity := u.severity <|> d.severity,
    response_status := u.response_status <|> d.response_status,
    validation_status := u.validation_status <|> d.validation_status,
    notes := u.notes <|> d.notes,
    tags := u.tags <|> d.tags,
    updated_at := some ts }

/-- The optimistic `setDetections` lambda of `updateDetection`: merge the
patch into every record whose id matches, leave the rest untouched. -/
def optimisticUpdate (prev : List Detection) (id : String) (u : DetectionPatch)
    (ts : String) : List Detection :=
  prev.map fun d => if d.id = id then applyPatch d u ts else d

/-- The optimistic `setDetections` lambda of `deleteDetection`: drop every
record whose id matches. -/
def optimisticDelete (prev : List Detection) (id : String) : List Detection :=
  prev.filter fun d => d.id != id

/-- A run of an optimistic mutator: the state visible after the optimistic
assignment but before the remote write settles, the state after the call
settles, and the error re-raised to the caller (`none` on success). -/
structure MutationRun where
  beforeRemote : StoreState
  final : StoreState
  raised : Option String

/-- One complete run of `updateDetection`: apply the optimistic merge
immediately, then issue the remote write; on remote failure await a full
`fetchDetections` (whose remote outcome is `reloadRemote`) and re-raise the
error, on success keep the optimistic state. -/
noncomputable def updateDetection (s : StoreState) (filters : Option SearchFilters)
    (id : String) (u : DetectionPatch) (ts : String)
    (remote : Except String Unit)
    (reloadRemote : Except String (List Detection)) : MutationRun :=
  let s1 := { s with detections := optimisticUpdate s.detections id u ts }
  match remote with
  | .ok _ => ⟨s1, s1, none⟩
  | .error e => ⟨s1, fetchDetections s1 filters reloadRemote, some e⟩

/-- One complete run of `deleteDetection`: optimistic removal, then the
remote delete; on remote failure a resynchronizing `fetchDetections` and the
error re-raised. -/
noncomputable def deleteDetection (s : StoreState) (filters : Option SearchFilters)
    (id : String) (remote : Except String Unit)
    (reloadRemote : Except String (List Detection)) : MutationRun :=
  let s1 := { s with detections := optimisticDelete s.detections id }
  match remote with
  | .ok _ => ⟨s1, s1, none⟩
  | .error e => ⟨s1, fetchDetections s1 filters reloadRemote, some e⟩

/-- A postgres-changes event delivered by the realtime channel. -/
inductive RealtimeEvent where
  | insertEvent (record : Detection)
  | updateEvent (record : Detection)
  | deleteEvent (oldId : String)

/-- The three subscription handlers of the realtime effect: insert prepends
`payload.new`, update replaces the record with matching id by `payload.new`,
delete filters out the record with `payload.old.id`. None of the handlers
takes or reads the active filters. -/
def applyRealtimeEvent : RealtimeEvent → List Detection → List Detection
  | .insertEvent d, prev => d :: prev
  | .updateEvent d, prev => prev.map fun e => if e.id = d.id then d else e
  | .deleteEvent oldId, prev => prev.filter fun d => d.id != oldId

/-- The static state of `CopernicusAuth`: the cached token string, its
absolute expiry (epoch milliseconds), the refresh guard flag and the shared
pending-refresh promise (identified by a number).  `refreshCount` is
instrumentation counting how many network refreshes have been started; it
also serves as the id generator for fresh promises. -/
structure AuthState where
  accessToken : Option String
  tokenExpiry : Int
  isRefreshing : Bool
  refreshPromise : Option Nat
  refreshCount : Nat
deriving DecidableEq, Repr

/-- The cache-validity guard of `getAccessToken`:
`this.accessToken && Date.now() < this.tokenExpiry - 60000`. -/
def hasValidCachedToken (s : AuthState) (now : Int) : Bool :=
  match s.accessToken with
  | some _ => decide (now < s.tokenExpiry - 60000)
  | none => false

/-- What one `getAccessToken` caller holds after its synchronous prefix:
either the cached token itself, or the pending refresh promise it awaits. -/
inductive TokenOutcome where
  | cached (token : String)
  | awaitRefresh (promiseId : Nat)
deriving DecidableEq, Repr

/-- The branch of `getAccessToken` taken when no valid token is cached:
`if (this.isRefreshing && this.refreshPromise) return this.refreshPromise;`
and otherwise set the guard, start `fetchNewToken` (one network refresh,
publishing a fresh shared promise) and await it. -/
def startOrJoinRefresh (s : AuthState) : AuthState × TokenOutcome :=
  match s.isRefreshing, s.refreshPromise with
  | true, some p => (s, .awaitRefresh p)
  | _, _ =>
      ({ s with
         isRefreshing := true, refreshPromise := some s.refreshCount,
         refreshCount := s.refreshCount + 1 },
       .awaitRefresh s.refreshCount)

/-- The synchronous prefix of one `getAccessToken` call (everything up to
its first `await`, which runs atomically on the JS event loop): return the
cached token when still valid, otherwise join or start the refresh. -/
def getAccessTokenEntry (s : AuthState) (now : Int) : AuthState × TokenOutcome :=
  match s.accessToken with
  | some t =>
      if now < s.tokenExpiry - 60000 then (s, .cached t)
      else startOrJoinRefresh s
  | none => startOrJoinRefresh s

/-- N concurrent `getAccessToken` callers entering one after the other on
the event loop, with no refresh resolution in between: the resulting state
and the outcome each caller holds. -/
def runCallers : Nat → AuthState → Int → AuthState × List TokenOutcome
  | 0, s, _ => (s, [])
  | n + 1, s, now =>
      let step := getAccessTokenEntry s now
      let rest := runCallers n step.1 now
      (rest.1, step.2 :: rest.2)

/-- The token a caller ends up with once promises are resolved: `res`
assigns each promise id the token its refresh resolved to. -/
def receivedToken (res : Nat → String) : TokenOutcome → String
  | .cached t => t
  | .awaitRefresh p => res p

/-- `clearToken`: drop the cached token and reset the expiry. -/
def clearToken (s : AuthState) : AuthState :=
  { s with accessToken := none, tokenExpiry := 0 }

/-- The awaited body of one refresh cycle (`fetchNewToken` plus the
`finally` of `getAccessToken`): `outcome` is the settled identity-endpoint
call, delivering the token string and `expires_in` seconds; on success the
token is cached with expiry `now + expires_in·1000`, on failure the error
propagates; either way the refresh guard and pending promise are cleared. -/
def refreshRun (s : AuthState) (now : Int)
    (outcome : Except String (String × Int)) : Except String String × AuthState :=
  match outcome with
  | .ok (tok, expiresIn) =>
      (.ok tok,
       { s with
         accessToken := some tok, tokenExpiry := now + expiresIn * 1000,
         isRefreshing := false, refreshPromise := none,
         refreshCount := s.refreshCount + 1 })
  | .error e => (.error e, { s with isRefreshing := false, refreshPromise := none })

/-- One sequential end-to-end `getAccessToken` call: cached token when
valid, otherwise a full refresh cycle. -/
def getAccessTokenRun (s : AuthState) (now : Int)
    (outcome : Except String (String × Int)) : Except String String × AuthState :=
  match s.accessToken with
  | some t =>
      if now < s.tokenExpiry - 60000 then (.ok t, s)
      else refreshRun s now outcome
  | none => refreshRun s now outcome

/-- An HTTP response as seen by `authenticatedFetch` (status code and body). -/
structure HttpResponse where
  status : Nat
  body : String
deriving DecidableEq, Repr

/-- One run of `authenticatedFetch`: obtain a token, issue the request
(`fetchF tok attempt` is the response the network returns to attempt 0 or 1
with bearer token `tok`); on a 401 clear the token cache, obtain a fresh
token and retry exactly once, returning the retried response as-is
(whatever its status); on any other status return the first response.
`refresh1`/`refresh2` are the settled identity-endpoint outcomes for the
(at most two) refresh cycles. -/
def authenticatedFetch (s : AuthState) (now : Int)
    (refresh1 refresh2 : Except String (String × Int))
    (fetchF : String → Nat → HttpResponse) : Except String HttpResponse × AuthState :=
  match getAccessTokenRun s now refresh1 with
  | (.error e, s1) => (.error e, s1)
  | (.ok tok, s1) =>
      let r := fetchF tok 0
      if r.status = 401 then
        let s2 := clearToken s1
        match getAccessTokenRun s2 now refresh2 with
        | (.error e, s3) => (.error e, s3)
        | (.ok tok2, s3) => (.ok (fetchF tok2 1), s3)
      else (.ok r, s1)

/-- The Copernicus OData catalog base URL. -/
def COPERNICUS_BASE_URL : String := "https://catalogue.dataspace.copernicus.eu/odata/v1"

/-- One raw product entry of the catalog response (`item.Id`, `item.Name`,
`item.ContentDate.Start`, `item.Footprint`, and the `cloudCover` attribute
when present). -/
structure RawProductItem where
  pid : String
  name : String
  contentDateStart : String
  footprint : String
  cloudCover : Option ℚ := none
deriving DecidableEq, Repr

/-- The settled catalog HTTP response: `ok`, status code, body text (read
on error), and the parsed `data.value` list. -/
structure CatalogResponse where
  ok : Bool
  status : Nat
  bodyText : String
  items : List RawProductItem
deriving DecidableEq, Repr

/-- A mapped `CopernicusProduct`. -/
structure CopernicusProduct where
  id : String
  title : String
  platform : String
  instrument : String
  acquisition_date : String
  footprint : String
  preview_url : Option String := none
  download_url : String
  cloud_coverage : Option ℚ := none
deriving DecidableEq, Repr

/-- The search parameters handed to the Sentinel searches (dates as epoch
milliseconds). -/
structure CopernicusSearchParams where
  latitude : ℝ
  longitude : ℝ
  startDate : Int
  endDate : Int
  maxCloudCoverage : Option ℚ := none
  bufferKm : Option ℝ := none

/-- An axis-aligned bounding box in degrees. -/
structure BBox where
  minLat : ℝ
  maxLat : ℝ
  minLng : ℝ
  maxLng : ℝ

/-- `createBoundingBox`: convert the buffer radius to a latitude delta
(`bufferKm / 111.32`) and a longitude delta corrected for latitude
(`bufferKm / (111.32 · cos(lat·π/180))`). -/
noncomputable def createBoundingBox (lat lng : ℝ) (bufferKm : ℝ) : BBox :=
  let kmPerDegree : ℝ := 111.32
  let latBuffer := bufferKm / kmPerDegree
  let lngBuffer := bufferKm / (kmPerDegree * Real.cos (lat * Real.pi / 180))
  { minLat := lat - latBuffer, maxLat := lat + latBuffer,
    minLng := lng - lngBuffer, maxLng := lng + lngBuffer }

/-- The coordinate sequence of the WKT polygon built by `createWKTPolygon`:
`(minLng minLat, maxLng minLat, maxLng maxLat, minLng maxLat, minLng minLat)`. -/
def polygonPoints (b : BBox) : List (ℝ × ℝ) :=
  [(b.minLng, b.minLat), (b.maxLng, b.minLat), (b.maxLng, b.maxLat),
   (b.minLng, b.maxLat), (b.minLng, b.minLat)]

/-- The structured content of the OData request `searchSentinel1SAR` builds
and issues (collection and product-type predicates, footprint polygon,
inclusive date range, page size 10); for Sentinel-2 the cloud-cover bound is
set as well. -/
structure CatalogRequest where
  collection : String
  productType : String
  footprint : List (ℝ × ℝ)
  startDate : Int
  endDate : Int
  top : Nat
  maxCloudCover : Option ℚ

/-- The request `searchSentinel1SAR` issues: built from the parameters for
any coordinates whatsoever (no validation precedes it). -/
noncomputable def s1Request (p : CopernicusSearchParams) : CatalogRequest :=
  { collection := "SENTINEL-1", productType := "GRD",
    footprint := polygonPoints (createBoundingBox p.latitude p.longitude (p.bufferKm.getD 50)),
    startDate := p.startDate, endDate := p.endDate, top := 10, maxCloudCover := none }

/-- The request `searchSentinel2MSI` issues. -/
noncomputable def s2Request (p : CopernicusSearchParams) : CatalogRequest :=
  { collection := "SENTINEL-2", productType := "S2MSI2A",
    footprint := polygonPoints (createBoundingBox p.latitude p.longitude (p.bufferKm.getD 50)),
    startDate := p.startDate, endDate := p.endDate, top := 10,
    maxCloudCover := some (p.maxCloudCoverage.getD 20) }

/-- The per-item mapping of `searchSentinel1SAR` (preview only when the id
is truthy, `cloud_coverage: null`). -/
def mapS1Item (item : RawProductItem) : CopernicusProduct :=
  { id := item.pid, title := item.name, platform := "SENTINEL-1", instrument := "SAR",
    acquisition_date := item.contentDateStart, footprint := item.footprint,
    preview_url :=
      if item.pid = "" then none
      else some (COPERNICUS_BASE_URL ++ "/Products(" ++ item.pid ++ ")/Quicklook/$value"),
    download_url := COPERNICUS_BASE_URL ++ "/Products(" ++ item.pid ++ ")/$value",
    cloud_coverage := none }

/-- The per-item mapping of `searchSentinel2MSI` (cloud cover read from the
attribute list). -/
def mapS2Item (item : RawProductItem) : CopernicusProduct :=
  { id := item.pid, title := item.name, platform := "SENTINEL-2", instrument := "MSI",
    acquisition_date := item.contentDateStart, footprint := item.footprint,
    preview_url :=
      if item.pid = "" then none
      else some (COPERNICUS_BASE_URL ++ "/Products(" ++ item.pid ++ ")/Quicklook/$value"),
    download_url := COPERNICUS_BASE_URL ++ "/Products(" ++ item.pid ++ ")/$value",
    cloud_coverage := item.cloudCover }

/-- One run of `searchSentinel1SAR`: `fetchResult` is the settled
`authenticatedFetch` of the request `s1Request p` (a rejection propagates);
a non-ok response raises `Copernicus API error: status - body`; an empty
`data.value` yields `[]`; otherwise every item is mapped.  No branch
inspects the coordinates: there is no validation. -/
def searchSentinel1SAR (p : CopernicusSearchParams)
    (fetchResult : Except String CatalogResponse) : Except String (List CopernicusProduct) :=
  match fetchResult with
  | .error e => .error e
  | .ok resp =>
      if resp.ok = false then
        .error ("Copernicus API error: " ++ toString resp.status ++ " - " ++ resp.bodyText)
      else if resp.items.isEmpty then .ok []
      else .ok (resp.items.map mapS1Item)

/-- One run of `searchSentinel2MSI`, same shape as the Sentinel-1 search
with the Sentinel-2 item mapping. -/
def searchSentinel2MSI (p : CopernicusSearchParams)
    (fetchResult : Except String CatalogResponse) : Except String (List CopernicusProduct) :=
  match fetchResult with
  | .error e => .error e
  | .ok resp =>
      if resp.ok = false then
        .error ("Copernicus API error: " ++ toString resp.status ++ " - " ++ resp.bodyText)
      else if resp.items.isEmpty then .ok []
      else .ok (resp.items.map mapS2Item)

/-- The combined imagery bundle `findSatelliteImagery` returns: a family
that failed contributes an empty list, and the single optional error field
is the partial-failure marker. -/
structure ImageryResult where
  sar : List CopernicusProduct
  optical : List CopernicusProduct
  error : Option String
deriving DecidableEq, Repr

/-- Milliseconds per day. -/
def dayMs : Int := 86400000

/-- The search parameters `findSatelliteImagery` builds: the detection date
widened by `daysBefore`/`daysAfter` days and a 30 km buffer. -/
noncomputable def findImageryParams (latitude longitude : ℝ) (detectionDate : Int)
    (daysBefore daysAfter : Int) : CopernicusSearchParams :=
  { latitude := latitude, longitude := longitude,
    startDate := detectionDate - daysBefore * dayMs,
    endDate := detectionDate + daysAfter * dayMs,
    bufferKm := some 30 }

/-- The result-object construction of `findSatelliteImagery` over the two
settled family searches (`Promise.allSettled` rejects neither): a fulfilled
family contributes its products, a rejected family contributes `[]`, and the
error field is set to `Some imagery could not be loaded` exactly when at
least one family rejected. -/
def combineSettled (sarProducts opticalProducts : Except String (List CopernicusProduct)) :
    ImageryResult :=
  { sar := match sarProducts with | .ok v => v | .error _ => []
    optical := match opticalProducts with | .ok v => v | .error _ => []
    error :=
      match sarProducts, opticalProducts with
      | .ok _, .ok _ => none
      | _, _ => some "Some imagery could not be loaded" }

/-- One run of `findSatelliteImagery`: the two family searches are issued
concurrently and joined with `Promise.allSettled` (so neither outcome can
block or cancel the other; `sarFetch`/`opticalFetch` are the two settled
catalog responses), and the settled outcomes are combined into the bundle. -/
noncomputable def findSatelliteImagery (latitude longitude : ℝ) (detectionDate : Int)
    (daysBefore daysAfter : Int)
    (sarFetch opticalFetch : Except String CatalogResponse) : ImageryResult :=
  combineSettled
    (searchSentinel1SAR (findImageryParams latitude longitude detectionDate daysBefore daysAfter)
      sarFetch)
    (searchSentinel2MSI
      { findImageryParams latitude longitude detectionDate daysBefore daysAfter with
        maxCloudCoverage := some 20 }
      opticalFetch)

/-! ### Theorems -/

/-- C10: applied to the in-memory collection, the optimistic mutators touch
only the record whose id equals the argument: `updateDetection`'s optimistic
map leaves every record with a different id unchanged (same position) and
preserves the collection's length, while `deleteDetection`'s optimistic
filter removes exactly the records with the given id and keeps the remaining
records in their relative order (a sublist of the original). -/
theorem optimistic_mutators_frame (prev : List Detection) (id : String)
    (u : DetectionPatch) (ts : String) :
    (optimisticUpdate prev id u ts).length = prev.length
    ∧ (∀ i : Nat, ∀ d : Detection, prev[i]? = some d → d.id ≠ id →
        (optimisticUpdate prev id u ts)[i]? = some d)
    ∧ (∀ d : Detection, d ∈ optimisticDelete prev id ↔ d ∈ prev ∧ d.id ≠ id)
    ∧ List.Sublist (optimisticDelete prev id) prev := by
  refine ⟨?_, ?_, ?_, ?_⟩
  · simp [optimisticUpdate]
  · intro i d hd hne
    simp [optimisticUpdate, List.getElem?_map, hd, hne]
  · intro d
    simp [optimisticDelete, List.mem_filter, bne_iff_ne]
  · exact List.filter_sublist _

/-- Closed instance of C10's theorem at a concrete collection. -/
theorem optimistic_mutators_frame_witness :
    (optimisticUpdate [] "x" {} "t").length = ([] : List Detection).length :=
  (optimistic_mutators_frame [] "x" {} "t").1

/-- C7: a delete event for id X removes every record with id X from the
collection exactly once (none is left, a second application is a no-op, the
rest keep their relative order), and this happens for every active filter
set, the handlers never consulting the filters; an insert event prepends the
new record and an update event replaces the record with matching id in
place, likewise for every filter set. -/
theorem realtime_events_apply (prev : List Detection) (x : String) (dnew : Detection) :
    (∀ _fs : SearchFilters,
      ∀ d : Detection,
        d ∈ applyRealtimeEvent (.deleteEvent x) prev ↔ d ∈ prev ∧ d.id ≠ x)
    ∧ (applyRealtimeEvent (.deleteEvent x) prev).countP (fun d => d.id == x) = 0
    ∧ applyRealtimeEvent (.deleteEvent x) (applyRealtimeEvent (.deleteEvent x) prev)
        = applyRealtimeEvent (.deleteEvent x) prev
    ∧ List.Sublist (applyRealtimeEvent (.deleteEvent x) prev) prev
    ∧ applyRealtimeEvent (.insertEvent dnew) prev = dnew :: prev
    ∧ (∀ i : Nat, ∀ d : Detection, prev[i]? = some d →
        (applyRealtimeEvent (.updateEvent dnew) prev)[i]?
          = some (if d.id = dnew.id then dnew else d)) := by
  refine ⟨?_, ?_, ?_, ?_, ?_, ?_⟩
  · intro _fs d
    simp [applyRealtimeEvent, List.mem_filter, bne_iff_ne]
  · rw [List.countP_eq_zero]
    intro d hd
    have := (List.mem_filter.mp hd).2
    simpa [bne_iff_ne] using this
  · simp [applyRealtimeEvent, List.filter_filter]
  · exact List.filter_sublist _
  · rfl
  · intro i d hd
    simp [applyRealtimeEvent, List.getElem?_map, hd]

/-- Closed instance of C7's theorem: an insert event prepends. -/
theorem realtime_events_apply_witness :
    applyRealtimeEvent (.insertEvent
        { id := "n", latitude := 0, longitude := 0, status := "Oil spill",
          detected_at := "t" }) []
      = [{ id := "n", latitude := 0, longitude := 0, status := "Oil spill",
           detected_at := "t" }] :=
  (realtime_events_apply [] "x"
    { id := "n", latitude := 0, longitude := 0, status := "Oil spill",
      detected_at := "t" }).2.2.2.2.1

/-- C6: a reload (`fetchDetections`) whose remote query fails leaves the
previously loaded collection exactly intact and records the failure in the
error flag (loading cleared), while a successful reload replaces the
collection in one assignment with the fetched, location-filtered page and
clears the error flag. -/
theorem reload_failure_preserves_collection (s : StoreState) (fs : Option SearchFilters)
    (e : String) (data : List Detection) (hf : s.isFetching = false) :
    (fetchDetections s fs (.error e)).detections = s.detections
    ∧ (fetchDetections s fs (.error e)).error = some e
    ∧ (fetchDetections s fs (.error e)).loading = false
    ∧ (fetchDetections s fs (.ok data)).detections
        = applyLocationFilter (fs.bind (fun f => f.location)) data
    ∧ (fetchDetections s fs (.ok data)).error = none := by
  simp [fetchDetections, hf]

/-- Closed instance of C6's theorem: a failed reload on a non-empty
collection keeps it. -/
theorem reload_failure_preserves_collection_witness :
    (fetchDetections
        ⟨[{ id := "a", latitude := 0, longitude := 0, status := "Oil spill",
            detected_at := "t" }], true, none, false⟩
        none (.error "network down")).detections
      = [{ id := "a", latitude := 0, longitude := 0, status := "Oil spill",
           detected_at := "t" }] :=
  (reload_failure_preserves_collection
    ⟨[{ id := "a", latitude := 0, longitude := 0, status := "Oil spill",
        detected_at := "t" }], true, none, false⟩
    none "network down" [] rfl).1

/-- C1: `updateDetection` merges the patch into the record with matching id
in the in-memory collection immediately — the state visible before the
remote write settles already holds the merged record, whatever the remote
outcome will be — and stamps the fresh `updated_at` on it; if the remote
write fails, the store runs a full resynchronizing reload (the final
collection is the location-filtered reloaded page, the optimistic change
dropped) and re-raises the error to the caller, while on remote success the
optimistic collection is kept and no error is raised. -/
theorem update_optimistic_then_reconcile (s : StoreState) (fs : Option SearchFilters)
    (id : String) (u : DetectionPatch) (ts : String) (i : Nat) (d : Detection)
    (e : String) (data : List Detection)
    (hf : s.isFetching = false)
    (hd : s.detections[i]? = some d) (hid : d.id = id) :
    (∀ (remote : Except String Unit) (reloadRemote : Except String (List Detection)),
        (updateDetection s fs id u ts remote reloadRemote).beforeRemote.detections[i]?
          = some (applyPatch d u ts))
    ∧ (applyPatch d u ts).updated_at = some ts
    ∧ (updateDetection s fs id u ts (.error e) (.ok data)).final.detections
        = applyLocationFilter (fs.bind (fun f => f.location)) data
    ∧ (updateDetection s fs id u ts (.error e) (.ok data)).raised = some e
    ∧ (∀ reloadRemote : Except String (List Detection),
        (updateDetection s fs id u ts (.ok ()) reloadRemote).raised = none
        ∧ (updateDetection s fs id u ts (.ok ()) reloadRemote).final.detections
            = optimisticUpdate s.detections id u ts) := by
  refine ⟨?_, rfl, ?_, ?_, ?_⟩
  · intro remote reloadRemote
    cases remote <;>
      simp [updateDetection, optimisticUpdate, List.getElem?_map, hd, hid]
  · simp [updateDetection, fetchDetections, hf]
  · simp [updateDetection]
  · intro reloadRemote
    exact ⟨rfl, rfl⟩

/-- Closed instance of C1's theorem: the fresh timestamp is stamped on the
merged record. -/
theorem update_optimistic_then_reconcile_witness :
    (applyPatch
        { id := "a", latitude := 0, longitude := 0, status := "Oil spill",
          detected_at := "t" }
        { severity := some "Critical" } "ts1").updated_at = some "ts1" :=
  (update_optimistic_then_reconcile
    ⟨[{ id := "a", latitude := 0, longitude := 0, status := "Oil spill",
        detected_at := "t" }], false, none, false⟩
    none "a" { severity := some "Critical" } "ts1" 0
    { id := "a", latitude := 0, longitude := 0, status := "Oil spill",
      detected_at := "t" }
    "write failed" [] rfl rfl rfl).2.1

/-- C8: when the filters carry a location with center and radius, a
successful reload applies radius-based location filtering as a client-side
post-filter: the resulting collection is exactly the fetched page filtered
by the haversine great-circle distance `calculateDistance` to the center
being at most the radius — a record is in the result iff it is in the
fetched page and within the radius. -/
theorem reload_location_postfilter (s : StoreState) (f : SearchFilters)
    (loc : LocationFilter) (data : List Detection)
    (hf : s.isFetching = false) (hl : f.location = some loc) :
    (fetchDetections s (some f) (.ok data)).detections
      = data.filter (fun d =>
          decide (calculateDistance loc.lat loc.lng d.latitude d.longitude ≤ loc.radius))
    ∧ ∀ d : Detection,
        d ∈ (fetchDetections s (some f) (.ok data)).detections
          ↔ d ∈ data ∧ calculateDistance loc.lat loc.lng d.latitude d.longitude ≤ loc.radius := by
  constructor
  · simp [fetchDetections, hf, hl, applyLocationFilter]
  · intro d
    simp [fetchDetections, hf, hl, applyLocationFilter, List.mem_filter]

/-- Closed instance of C8's theorem at a concrete store state and filter. -/
theorem reload_location_postfilter_witness :
    (fetchDetections ⟨[], true, none, false⟩
        (some { location := some ⟨0, 0, 1⟩ }) (.ok [])).detections
      = List.filter (fun d =>
          decide (calculateDistance 0 0 d.latitude d.longitude ≤ 1)) [] :=
  (reload_location_postfilter ⟨[], true, none, false⟩
    { location := some ⟨0, 0, 1⟩ } ⟨0, 0, 1⟩ [] rfl rfl).1

/-- Helper for C3: a caller entering `getAccessToken` while no valid token
is cached and a refresh is pending joins the pending promise and changes
nothing. -/
theorem getAccessTokenEntry_joins (s : AuthState) (now : Int) (p : Nat)
    (h1 : hasValidCachedToken s now = false)
    (h2 : s.isRefreshing = true) (h3 : s.refreshPromise = some p) :
    getAccessTokenEntry s now = (s, .awaitRefresh p) := by
  unfold getAccessTokenEntry startOrJoinRefresh
  cases hacc : s.accessToken with
  | none => simp [h2, h3]
  | some t =>
      have hlt : ¬ (now < s.tokenExpiry - 60000) := by
        unfold hasValidCachedToken at h1
        rw [hacc] at h1
        simpa using h1
      simp [hlt, h2, h3]

/-- Helper for C3: any number of callers entering while a refresh is
pending all join that same promise, without starting anything. -/
theorem runCallers_joined (now : Int) (p : Nat) :
    ∀ (n : Nat) (s : AuthState), hasValidCachedToken s now = false →
      s.isRefreshing = true → s.refreshPromise = some p →
      runCallers n s now = (s, List.replicate n (.awaitRefresh p)) := by
  intro n
  induction n with
  | zero => intro s _ _ _; rfl
  | succ n ih =>
      intro s h1 h2 h3
      rw [runCallers, getAccessTokenEntry_joins s now p h1 h2 h3, ih s h1 h2 h3,
        List.replicate_succ]

/-- C3: while one token refresh is outstanding no call starts a second
network refresh: for any number N > 0 of `getAccessToken` calls entering
concurrently (in any interleaving on the event loop, before the refresh
resolves) while no valid token is cached and no refresh is pending yet,
exactly one network refresh is started, every caller awaits the same shared
pending promise, and therefore every caller receives the same token when
that promise resolves. -/
theorem token_refresh_deduplicated (s : AuthState) (now : Int) (n : Nat)
    (hv : hasValidCachedToken s now = false) (hr : s.isRefreshing = false) (hn : 0 < n) :
    (runCallers n s now).1.refreshCount = s.refreshCount + 1
    ∧ (∀ o ∈ (runCallers n s now).2, o = TokenOutcome.awaitRefresh s.refreshCount)
    ∧ (∀ res : Nat → String, ∀ o ∈ (runCallers n s now).2,
        receivedToken res o = res s.refreshCount) := by
  obtain ⟨m, rfl⟩ : ∃ m, n = m + 1 := ⟨n - 1, (Nat.succ_pred_eq_of_pos hn).symm⟩
  have hstep : getAccessTokenEntry s now
      = ({ s with
           isRefreshing := true, refreshPromise := some s.refreshCount,
           refreshCount := s.refreshCount + 1 },
         .awaitRefresh s.refreshCount) := by
    unfold getAccessTokenEntry startOrJoinRefresh
    cases hacc : s.accessToken with
    | none => simp [hr]
    | some t =>
        have hlt : ¬ (now < s.tokenExpiry - 60000) := by
          unfold hasValidCachedToken at hv
          rw [hacc] at hv
          simpa using hv
        simp [hlt, hr]
  have hv' : hasValidCachedToken
      { s with
        isRefreshing := true, refreshPromise := some s.refreshCount,
        refreshCount := s.refreshCount + 1 } now = false := hv
  have hrest := runCallers_joined now s.refreshCount m
    { s with
      isRefreshing := true, refreshPromise := some s.refreshCount,
      refreshCount := s.refreshCount + 1 }
    hv' rfl rfl
  rw [runCallers, hstep, hrest]
  refine ⟨rfl, ?_, ?_⟩
  · intro o ho
    rcases List.mem_cons.mp ho with h | h
    · exact h
    · exact List.eq_of_mem_replicate h
  · intro res o ho
    rcases List.mem_cons.mp ho with h | h
    · rw [h]; rfl
    · rw [List.eq_of_mem_replicate h]; rfl

/-- Closed instance of C3's theorem: three concurrent callers on an empty
cache cause exactly one refresh. -/
theorem token_refresh_deduplicated_witness :
    (runCallers 3 ⟨none, 0, false, none, 0⟩ 0).1.refreshCount
      = AuthState.refreshCount ⟨none, 0, false, none, 0⟩ + 1 :=
  (token_refresh_deduplicated ⟨none, 0, false, none, 0⟩ 0 3 rfl rfl (by decide)).1

/-- C5: for every center `(lat, lng)` with `cos(lat·π/180) > 0` and every
radius `r > 0`, the query builder produces a closed five-point bounding
polygon (first point equals last point) that contains the center, whose
latitude span is `2·(r/111.32)` and whose longitude span is
`2·(r/(111.32·cos(lat·π/180)))`. -/
theorem bounding_polygon_spec (lat lng r : ℝ)
    (hc : 0 < Real.cos (lat * Real.pi / 180)) (hr : 0 < r) :
    (polygonPoints (createBoundingBox lat lng r)).length = 5
    ∧ (polygonPoints (createBoundingBox lat lng r)).head?
        = (polygonPoints (createBoundingBox lat lng r)).getLast?
    ∧ (createBoundingBox lat lng r).minLat < lat
    ∧ lat < (createBoundingBox lat lng r).maxLat
    ∧ (createBoundingBox lat lng r).minLng < lng
    ∧ lng < (createBoundingBox lat lng r).maxLng
    ∧ (createBoundingBox lat lng r).maxLat - (createBoundingBox lat lng r).minLat
        = 2 * (r / 111.32)
    ∧ (createBoundingBox lat lng r).maxLng - (createBoundingBox lat lng r).minLng
        = 2 * (r / (111.32 * Real.cos (lat * Real.pi / 180))) := by
  have hkm : (0 : ℝ) < 111.32 := by norm_num
  have h1 : 0 < r / 111.32 := div_pos hr hkm
  have h2 : 0 < r / (111.32 * Real.cos (lat * Real.pi / 180)) :=
    div_pos hr (mul_pos hkm hc)
  refine ⟨rfl, rfl, ?_, ?_, ?_, ?_, ?_, ?_⟩
  · simp only [createBoundingBox]
    linarith
  · simp only [createBoundingBox]
    linarith
  · simp only [createBoundingBox]
    linarith
  · simp only [createBoundingBox]
    linarith
  · simp only [createBoundingBox]
    ring
  · simp only [createBoundingBox]
    ring

/-- Closed instance of C5's theorem at the equator with a 1 km radius. -/
theorem bounding_polygon_spec_witness :
    (createBoundingBox 0 0 1).maxLat - (createBoundingBox 0 0 1).minLat
      = 2 * ((1 : ℝ) / 111.32) :=
  (bounding_polygon_spec 0 0 1
    (by rw [zero_mul, zero_div, Real.cos_zero]; exact one_pos)
    one_pos).2.2.2.2.2.2.1

/-- C2 counterexample: with radar succeeding (one product) and only the
optical search failing, `findSatelliteImagery` already surfaces its error
indication — the single error field, the only error channel the caller
gets, is set to the aggregate message even though just one family failed
(and no exception path exists: the bundle is returned normally).  So the
distinction the claim draws — a `partial` marker on a single failure versus
an aggregate error surfaced only when both families fail — does not exist
in the code. -/
theorem findImagery_single_failure_surfaces_error :
    (findSatelliteImagery 10 20 0 3 3
        (.ok ⟨true, 200, "", [⟨"A", "S1A", "2024-01-01", "POLY", none⟩]⟩)
        (.ok ⟨false, 500, "boom", []⟩)).error
      = some "Some imagery could not be loaded"
    ∧ (findSatelliteImagery 10 20 0 3 3
        (.ok ⟨true, 200, "", [⟨"A", "S1A", "2024-01-01", "POLY", none⟩]⟩)
        (.ok ⟨false, 500, "boom", []⟩)).sar ≠ [] := by
  exact ⟨rfl, by decide⟩

/-- C2 amended: `findSatelliteImagery` joins the two concurrent family
searches with `allSettled`, so neither family's failure blocks the other: a
fulfilled family's products are returned unchanged, a failed family
contributes an empty list, and the single optional error field — the
partial-failure marker — is `none` exactly when both families succeeded;
the same returned (never thrown) message is used whether one or both
families failed. -/
theorem findImagery_partial_result (lat lng : ℝ) (date db da : Int)
    (sarFetch opticalFetch : Except String CatalogResponse) :
    (∀ v, searchSentinel1SAR (findImageryParams lat lng date db da) sarFetch = .ok v →
        (findSatelliteImagery lat lng date db da sarFetch opticalFetch).sar = v)
    ∧ (∀ e, searchSentinel1SAR (findImageryParams lat lng date db da) sarFetch = .error e →
        (findSatelliteImagery lat lng date db da sarFetch opticalFetch).sar = [])
    ∧ (∀ v, searchSentinel2MSI
          { findImageryParams lat lng date db da with maxCloudCoverage := some 20 }
          opticalFetch = .ok v →
        (findSatelliteImagery lat lng date db da sarFetch opticalFetch).optical = v)
    ∧ (∀ e, searchSentinel2MSI
          { findImageryParams lat lng date db da with maxCloudCoverage := some 20 }
          opticalFetch = .error e →
        (findSatelliteImagery lat lng date db da sarFetch opticalFetch).optical = [])
    ∧ ((findSatelliteImagery lat lng date db da sarFetch opticalFetch).error = none
        ↔ (∃ v, searchSentinel1SAR (findImageryParams lat lng date db da) sarFetch = .ok v)
          ∧ (∃ w, searchSentinel2MSI
              { findImageryParams lat lng date db da with maxCloudCoverage := some 20 }
              opticalFetch = .ok w)) := by
  unfold findSatelliteImagery
  cases hA : searchSentinel1SAR (findImageryParams lat lng date db da) sarFetch with
  | ok v =>
      cases hB : searchSentinel2MSI
          { findImageryParams lat lng date db da with maxCloudCoverage := some 20 }
          opticalFetch with
      | ok w => simp [combineSettled]
      | error e => simp [combineSettled]
  | error e =>
      cases hB : searchSentinel2MSI
          { findImageryParams lat lng date db da with maxCloudCoverage := some 20 }
          opticalFetch with
      | ok w => simp [combineSettled]
      | error e2 => simp [combineSettled]

/-- Closed instance of C2's amended theorem: a rejected radar family
contributes an empty list. -/
theorem findImagery_partial_result_witness :
    (findSatelliteImagery 0 0 0 3 3
        (.ok ⟨false, 500, "boom", []⟩) (.ok ⟨true, 200, "", []⟩)).sar = [] :=
  (findImagery_partial_result 0 0 0 3 3
    (.ok ⟨false, 500, "boom", []⟩) (.ok ⟨true, 200, "", []⟩)).2.1
    "Copernicus API error: 500 - boom" rfl

/-- C4 counterexample: with a valid cached token and a network that answers
401 to every request, `authenticatedFetch` clears the cache, refreshes,
retries once — and then returns the second 401 response normally to the
caller instead of terminating with an `AuthError`. -/
theorem second401_returned_not_error :
    authenticatedFetch ⟨some "t0", 10000000, false, none, 0⟩ 0
        (.ok ("t1", 600)) (.ok ("t1", 600)) (fun _ _ => ⟨401, "denied"⟩)
      = (.ok ⟨401, "denied"⟩, ⟨some "t1", 600000, false, none, 1⟩) := by
  rfl

/-- C4 amended: on a 401 response the client clears the token cache and
retries the request exactly once with a token freshly obtained after the
clear; the retried response is returned to the caller as-is — a second 401
yields a returned 401 response, not an `AuthError` (an error is raised only
when obtaining the token itself fails). -/
theorem authenticatedFetch_retry_once (s : AuthState) (now : Int)
    (refresh1 refresh2 : Except String (String × Int))
    (fetchF : String → Nat → HttpResponse) (tok tok2 : String) (s1 s3 : AuthState)
    (h1 : getAccessTokenRun s now refresh1 = (.ok tok, s1))
    (h2 : (fetchF tok 0).status = 401)
    (h3 : getAccessTokenRun (clearToken s1) now refresh2 = (.ok tok2, s3)) :
    authenticatedFetch s now refresh1 refresh2 fetchF = (.ok (fetchF tok2 1), s3) := by
  simp [authenticatedFetch, h1, h2, h3]

/-- Closed instance of C4's amended theorem at a concrete 401-answering
network. -/
theorem authenticatedFetch_retry_once_witness :
    authenticatedFetch ⟨some "t0", 10000000, false, none, 0⟩ 0
        (.ok ("t1", 600)) (.ok ("t1", 600)) (fun _ _ => ⟨401, "no"⟩)
      = (.ok ((fun (_ : String) (_ : Nat) => (⟨401, "no"⟩ : HttpResponse)) "t1" 1),
         ⟨some "t1", 600000, false, none, 1⟩) :=
  authenticatedFetch_retry_once ⟨some "t0", 10000000, false, none, 0⟩ 0
    (.ok ("t1", 600)) (.ok ("t1", 600)) (fun _ _ => ⟨401, "no"⟩)
    "t0" "t1" ⟨some "t0", 10000000, false, none, 0⟩ ⟨some "t1", 600000, false, none, 1⟩
    rfl rfl rfl

/-- C9 counterexample: the catalog search accepts an out-of-range latitude
of 91 and proceeds: with a successful network response it returns the
mapped products, and with a failing network it propagates the network
error — so the network call is issued and no `ValidationError` is raised
before it; no validation exists in the code. -/
theorem out_of_range_latitude_not_rejected :
    searchSentinel1SAR ⟨91, 0, 0, 0, none, none⟩
        (.ok ⟨true, 200, "", [⟨"A", "N", "d", "P", none⟩]⟩)
      = .ok [{ id := "A", title := "N", platform := "SENTINEL-1", instrument := "SAR",
               acquisition_date := "d", footprint := "P",
               preview_url := some
                 "https://catalogue.dataspace.copernicus.eu/odata/v1/Products(A)/Quicklook/$value",
               download_url :=
                 "https://catalogue.dataspace.copernicus.eu/odata/v1/Products(A)/$value",
               cloud_coverage := none }]
    ∧ searchSentinel1SAR ⟨91, 0, 0, 0, none, none⟩ (.error "network unreachable")
      = .error "network unreachable" := by
  exact ⟨rfl, rfl⟩

/-- C9 amended: neither the catalog imagery search nor the store reload
validates coordinates or filters: for every parameter set — out-of-range
coordinates included — the search issues its request and its outcome is
determined solely by the network response (mapped products on a 2xx, the
propagated error otherwise), and a successful reload never reports any
error (a `ValidationError` type does not exist; coordinate ranges are
enforced only by the backing table's CHECK constraints at ingestion). -/
theorem no_validation_before_network (p : CopernicusSearchParams)
    (resp : CatalogResponse) (s : StoreState) (fs : Option SearchFilters)
    (data : List Detection)
    (hok : resp.ok = true) (hf : s.isFetching = false) :
    searchSentinel1SAR p (.ok resp) = .ok (resp.items.map mapS1Item)
    ∧ (∀ e, searchSentinel1SAR p (.error e) = .error e)
    ∧ (fetchDetections s fs (.ok data)).error = none := by
  refine ⟨?_, fun e => rfl, ?_⟩
  · cases hi : resp.items with
    | nil => simp [searchSentinel1SAR, hok, hi]
    | cons a l => simp [searchSentinel1SAR, hok, hi]
  · simp [fetchDetections, hf]

/-- Closed instance of C9's amended theorem at latitude 91. -/
theorem no_validation_before_network_witness :
    searchSentinel1SAR ⟨91, 0, 0, 0, none, none⟩
        (.ok ⟨true, 200, "", [⟨"B", "M", "d2", "Q", none⟩]⟩)
      = .ok (List.map mapS1Item [⟨"B", "M", "d2", "Q", none⟩]) :=
  (no_validation_before_network ⟨91, 0, 0, 0, none, none⟩
    ⟨true, 200, "", [⟨"B", "M", "d2", "Q", none⟩]⟩
    ⟨[], true, none, false⟩ none [] rfl rfl).1

end OilSpill
